import Mathlib

/-!
Verification development for the Foodgram backend (Django REST service).

The definitions below are a shallow embedding of the code in
`backend/api/v1/serializers.py`, `backend/api/v1/views.py`,
`backend/api/v1/mixins.py`, `backend/api/v1/models.py` and
`backend/users/models.py`.  Database tables are lists of records, machine
integers are `Int`/`Nat`, and fallible request handlers return
`Except`/status codes.  The Python source is dynamically typed; branches
that guard against ill-typed JSON (the `isinstance` checks of
`_validate_ingredients` / `_validate_tags`) are made unreachable by the
typed payload representation and are noted in comments at the place where
they occur.
-/

/-- Row of the `Ingredient` table (`api/v1/models.py`): primary key,
`name`, `measurement_unit`. -/
structure Ingredient where
  id : Nat
  name : String
  measurement_unit : String
deriving DecidableEq, Repr

/-- Row of the `Recipe` table (`api/v1/models.py`).  The image is kept as
the stored file name; tag and ingredient relations live in separate
tables, as in the schema. -/
structure Recipe where
  id : Nat
  author : Nat
  name : String
  text : String
  cooking_time : Int
  image : String
deriving DecidableEq, Repr

/-- Row of the `IngredientAmount` through table (`api/v1/models.py`):
foreign keys `recipe`, `ingredient` and the `amount` column
(a `PositiveIntegerField`). -/
structure IngredientAmountRow where
  recipe : Nat
  ingredient : Nat
  amount : Int
deriving DecidableEq, Repr

/-- The relational state.  `tags` holds tag primary keys (the other Tag
columns are never consulted by the modelled operations), `recipeTags` the
plain many-to-many rows (recipe id, tag id), `favorites` and `carts` the
(user id, recipe id) join rows, `follows` the (author id, follower id)
rows of `users.models.Follow`. -/
structure DB where
  users : List Nat
  ingredients : List Ingredient
  tags : List Nat
  recipes : List Recipe
  recipeTags : List (Nat × Nat)
  ingredientAmounts : List IngredientAmountRow
  favorites : List (Nat × Nat)
  carts : List (Nat × Nat)
  follows : List (Nat × Nat)
deriving DecidableEq, Repr

/-- One element of the `ingredients` list of a recipe payload:
a JSON object with integer `id` and `amount` keys
(`_validate_ingredients` docstring). -/
structure IngredientEntry where
  id : Nat
  amount : Int
deriving DecidableEq, Repr

/-- The JSON body of a recipe create/update request, restricted to the
keys the serializer reads.  `none` models an absent key (`dict.get`
returning `None`). -/
structure RecipePayload where
  ingredients : Option (List IngredientEntry)
  tags : Option (List Nat)
  name : Option String
  text : Option String
  cooking_time : Option Int
  image : Option String
deriving DecidableEq, Repr

/-- `not request.data`: the request body is the empty dict. -/
def RecipePayload.isEmpty (p : RecipePayload) : Bool :=
  p.ingredients.isNone && p.tags.isNone && p.name.isNone &&
    p.text.isNone && p.cooking_time.isNone && p.image.isNone

/-- HTTP method of the request, as far as the modelled handlers
distinguish them. -/
inductive Method where
  | POST
  | PATCH
  | DELETE
deriving DecidableEq, Repr

/-- Errors surfaced by the API layer: `validation` is a DRF
`ValidationError` keyed by a field name (HTTP 400), `notFound` an
`Http404` from `get_object_or_404`, `serverError` an uncaught database
error (HTTP 500). -/
inductive DBError where
  | constraintViolation
  | typeError
deriving DecidableEq, Repr

inductive ApiError where
  | validation (field msg : String)
  | notFound (what : String)
  | serverError (e : DBError)
deriving DecidableEq, Repr

/-- Is the error a DRF `ValidationError` (HTTP 400 with field-keyed
detail)? -/
def ApiError.isValidation : ApiError → Bool
  | .validation _ _ => true
  | _ => false

/-- `get_object_or_404(Ingredient, pk=...)`. -/
def DB.findIngredient (db : DB) (pk : Nat) : Option Ingredient :=
  db.ingredients.find? (fun i => i.id == pk)

/-- `Recipe.objects.filter(pk=...).exists()`-style lookup. -/
def DB.recipeExists (db : DB) (pk : Nat) : Bool :=
  db.recipes.any (fun r => r.id == pk)

namespace CreateRecipeSerializer

/-- The loop body of `_validate_ingredients` (serializers.py 269-304):
walk the entries accumulating `used_ingredients`; for each entry fetch
the ingredient (404 when missing), reject a repeated ingredient
(Django model equality compares primary keys), then reject
`amount < 1`.  The `isinstance`/key-presence checks of the source are
unreachable in this typed embedding. -/
def validateIngredientsLoop (db : DB) (used : List Ingredient) :
    List IngredientEntry → Except ApiError Unit
  | [] => .ok ()
  | item :: rest =>
    match db.findIngredient item.id with
    | none => .error (.notFound "ingredient")
    | some ingredient =>
      if used.any (fun x => x.id == ingredient.id) then
        .error (.validation "ingredients" "cannot repeat")
      else if item.amount < 1 then
        .error (.validation "ingredients" "invalid amount")
      else
        validateIngredientsLoop db (used ++ [ingredient]) rest

/-- `_validate_ingredients` (serializers.py 235-306): an empty list is a
validation error, otherwise the per-entry loop runs with an empty
`used_ingredients`. -/
def _validate_ingredients (db : DB) (ingredients : List IngredientEntry) :
    Except ApiError Unit :=
  if ingredients.length == 0 then
    .error (.validation "ingredients" "at least one ingredient required")
  else
    validateIngredientsLoop db [] ingredients

/-- The loop body of `_validate_tags` (serializers.py 336-353): each id
must reference an existing tag (404 otherwise) and may not repeat. -/
def validateTagsLoop (db : DB) (used : List Nat) :
    List Nat → Except ApiError Unit
  | [] => .ok ()
  | id :: rest =>
    if db.tags.contains id then
      if used.contains id then
        .error (.validation "tag" "cannot repeat")
      else
        validateTagsLoop db (used ++ [id]) rest
    else
      .error (.notFound "tag")

/-- `_validate_tags` (serializers.py 308-355). -/
def _validate_tags (db : DB) (tags : List Nat) : Except ApiError Unit :=
  if tags.length == 0 then
    .error (.validation "tags" "at least one tag required")
  else
    validateTagsLoop db [] tags

/-- `CreateRecipeSerializer.validate` (serializers.py 196-233), written
with the sequential raises of the source made explicit:
1. empty body is rejected;
2. on POST a `None` value for `tags` and then `ingredients` is rejected,
   the error detail keyed by the field name;
3. a truthy (present and non-empty) `ingredients` value runs
   `_validate_ingredients`, then a truthy `tags` value runs
   `_validate_tags` — the walrus `if ingredients := ...get(...):` of the
   source skips validation for an empty list. -/
def validate (db : DB) (method : Method) (p : RecipePayload) :
    Except ApiError Unit :=
  if p.isEmpty then
    .error (.validation "errors" "empty request")
  else if method == Method.POST && p.tags.isNone then
    .error (.validation "tags" "field cannot be empty")
  else if method == Method.POST && p.ingredients.isNone then
    .error (.validation "ingredients" "field cannot be empty")
  else
    match (match p.ingredients with
           | some l =>
             if l.isEmpty then Except.ok () else _validate_ingredients db l
           | none => Except.ok ()) with
    | .error e => .error e
    | .ok _ =>
      match p.tags with
      | some ts =>
        if ts.isEmpty then Except.ok () else _validate_tags db ts
      | none => Except.ok ()

end CreateRecipeSerializer

/-! ## Database write primitives

Constraints enforced by the storage layer (PostgreSQL, per the default
`DATABASES` engine in `foodgram/settings.py`) for `IngredientAmount`
rows: both foreign keys must resolve, `amount` is a
`PositiveIntegerField` (a 32-bit `integer` column with a non-negativity
check), and `(ingredient, recipe)` is unique
(`api/v1/models.py`, `IngredientAmount.Meta`). -/

/-- Can `row` be inserted into `db.ingredientAmounts`? -/
def amountRowOk (db : DB) (row : IngredientAmountRow) : Bool :=
  db.ingredients.any (fun i => i.id == row.ingredient) &&
  db.recipes.any (fun r => r.id == row.recipe) &&
  decide (0 ≤ row.amount) && decide (row.amount ≤ 2147483647) &&
  !(db.ingredientAmounts.any
      (fun x => x.ingredient == row.ingredient && x.recipe == row.recipe))

/-- Insert the rows one after another; used below only through
`bulkCreateAmounts`, whose caller treats an error as the whole statement
having been rolled back. -/
def insertAmounts (db : DB) : List IngredientAmountRow → Except DBError DB
  | [] => .ok db
  | row :: rest =>
    if amountRowOk db row then
      insertAmounts
        { db with ingredientAmounts := db.ingredientAmounts ++ [row] } rest
    else
      .error DBError.constraintViolation

/-- `IngredientAmount.objects.bulk_create(...)`: a single INSERT
statement — it stores every row or, on a constraint violation, none
(the caller keeps its pre-statement state on `.error`). -/
def bulkCreateAmounts (db : DB) (rows : List IngredientAmountRow) :
    Except DBError DB :=
  insertAmounts db rows

/-- `recipe.tags.set(ts)`: replace the many-to-many rows of `recipeId`
with the given tag ids; a tag id that does not resolve violates the
foreign key. -/
def tagsSet (db : DB) (recipeId : Nat) (ts : List Nat) :
    Except DBError DB :=
  if ts.all (fun t => db.tags.contains t) then
    .ok { db with
          recipeTags :=
            (db.recipeTags.filter (fun rt => !(rt.1 == recipeId))) ++
              ts.map (fun t => (recipeId, t)) }
  else
    .error DBError.constraintViolation

namespace CreateRecipeSerializer

/-- `create_ingredient_amount` (serializers.py 156-164): build the
through-model rows from the payload entries. -/
def create_ingredient_amount (objs : List IngredientEntry) (recipeId : Nat) :
    List IngredientAmountRow :=
  objs.map (fun e => { recipe := recipeId, ingredient := e.id, amount := e.amount })

/-- `CreateRecipeSerializer.create` (serializers.py 135-154).  The
method carries `@transaction.atomic`: an `.error` result means the
transaction was rolled back and the database is unchanged — the caller
(`recipeCreateFlow`) keeps its original state in that case.
`validated_data` contributes the plain fields plus the author; the
`.getD` defaults stand for values the framework's field validation
guarantees to be present on POST.  A `None` value for `tags` or
`ingredients` would crash Python when iterated (`TypeError`), modelled
as `typeError`. -/
def create (db : DB) (p : RecipePayload) (author newId : Nat) :
    Except DBError DB :=
  match p.tags, p.ingredients with
  | none, _ => .error DBError.typeError
  | _, none => .error DBError.typeError
  | some ts, some ings =>
    let db1 :=
      { db with
        recipes := db.recipes ++
          [{ id := newId, author := author, name := p.name.getD "",
             text := p.text.getD "", cooking_time := p.cooking_time.getD 0,
             image := p.image.getD "" }] }
    match tagsSet db1 newId ts with
    | .error e => .error e
    | .ok db2 =>
      match bulkCreateAmounts db2 (create_ingredient_amount ings newId) with
      | .error e => .error e
      | .ok db3 => .ok db3

/-- The field-assignment tail of `update` (serializers.py 187-192):
`obj.cooking_time = validated_data.get('cooking_time', obj.cooking_time)`
and so on, followed by `obj.save()`. -/
def updateFieldsStep (db : DB) (rid : Nat) (p : RecipePayload) :
    DB × Except ApiError Unit :=
  ({ db with
     recipes := db.recipes.map (fun r =>
       if r.id == rid then
         { r with cooking_time := p.cooking_time.getD r.cooking_time,
                  image := p.image.getD r.image,
                  name := p.name.getD r.name,
                  text := p.text.getD r.text }
       else r) },
   .ok ())

/-- The tag step of `update` (serializers.py 182-185): when `tags` is
present (`is not None`), `obj.tags.clear()` commits, then
`obj.tags.set(tags)` runs; a failure of the latter leaves the clear in
place, since `update` is not inside a transaction. -/
def updateTagsStep (db : DB) (rid : Nat) (p : RecipePayload) :
    DB × Except ApiError Unit :=
  match p.tags with
  | some ts =>
    let dbClr :=
      { db with recipeTags := db.recipeTags.filter (fun rt => !(rt.1 == rid)) }
    match tagsSet dbClr rid ts with
    | .error e => (dbClr, .error (.serverError e))
    | .ok db1 => updateFieldsStep db1 rid p
  | none => updateFieldsStep db rid p

/-- `CreateRecipeSerializer.update` (serializers.py 166-194).  Unlike
`create` this method has no `@transaction.atomic` decorator and the
project sets no `ATOMIC_REQUESTS`, so each ORM write commits on its own:
when `ingredients` is present (`is not None` — an empty list included),
the existing amount rows of the recipe are deleted and that delete is
already committed when the subsequent `bulk_create` runs; an error there
propagates with the deletion kept. -/
def update (db : DB) (rid : Nat) (p : RecipePayload) :
    DB × Except ApiError Unit :=
  match p.ingredients with
  | some ings =>
    let dbDel :=
      { db with
        ingredientAmounts :=
          db.ingredientAmounts.filter (fun r => !(r.recipe == rid)) }
    match bulkCreateAmounts dbDel (create_ingredient_amount ings rid) with
    | .error e => (dbDel, .error (.serverError e))
    | .ok db1 => updateTagsStep db1 rid p
  | none => updateTagsStep db rid p

end CreateRecipeSerializer

/-- The POST `/api/recipes/` flow: DRF runs `validate` and, on success,
`create` (under `@transaction.atomic`, hence the unchanged `db` on a
database error). -/
def recipeCreateFlow (db : DB) (p : RecipePayload) (author newId : Nat) :
    DB × Except ApiError Unit :=
  match CreateRecipeSerializer.validate db Method.POST p with
  | .error e => (db, .error e)
  | .ok _ =>
    match CreateRecipeSerializer.create db p author newId with
    | .error e => (db, .error (.serverError e))
    | .ok db1 => (db1, .ok ())

/-- The PATCH `/api/recipes/{id}/` flow: the viewset resolves the object
(404 when missing), DRF runs `validate`, then `update`. -/
def recipePartialUpdateFlow (db : DB) (rid : Nat) (p : RecipePayload) :
    DB × Except ApiError Unit :=
  if db.recipeExists rid then
    match CreateRecipeSerializer.validate db Method.PATCH p with
    | .error e => (db, .error e)
    | .ok _ => CreateRecipeSerializer.update db rid p
  else
    (db, .error (.notFound "recipe"))

/-- The requesting user as seen by a serializer context:
`request.user.is_anonymous` or an authenticated user id. -/
inductive RequestUser where
  | anonymous
  | authenticated (id : Nat)
deriving DecidableEq, Repr

namespace CartFavoriteFlagsMixin

/-- `CartFavoriteFlagsMixin.get_is_favorited` (mixins.py 14-19):
`False` for an anonymous user, otherwise
`Favorite.objects.filter(recipe=obj, user=user).exists()`. -/
def get_is_favorited (db : DB) (u : RequestUser) (recipeId : Nat) : Bool :=
  match u with
  | .anonymous => false
  | .authenticated uid =>
    db.favorites.any (fun pr => pr.1 == uid && pr.2 == recipeId)

/-- `CartFavoriteFlagsMixin.get_is_in_shopping_cart` (mixins.py 21-26). -/
def get_is_in_shopping_cart (db : DB) (u : RequestUser) (recipeId : Nat) :
    Bool :=
  match u with
  | .anonymous => false
  | .authenticated uid =>
    db.carts.any (fun pr => pr.1 == uid && pr.2 == recipeId)

end CartFavoriteFlagsMixin

/-- Which of the two (user, recipe) relation models a toggle endpoint
operates on (`favorite` passes `Favorite`, `shopping_cart` passes
`Cart`; views.py 111-137). -/
inductive RelKind where
  | favorite
  | cart
deriving DecidableEq, Repr

/-- The rows of the selected relation. -/
def DB.relList (db : DB) : RelKind → List (Nat × Nat)
  | .favorite => db.favorites
  | .cart => db.carts

/-- Replace the rows of the selected relation. -/
def DB.setRel (db : DB) : RelKind → List (Nat × Nat) → DB
  | .favorite, l => { db with favorites := l }
  | .cart, l => { db with carts := l }

namespace RecipeViewSet

/-- `RecipeViewSet._create_object` (views.py 139-165).  Returns the new
state and the HTTP status: the duplicate check
(`model.objects.filter(recipe__pk=..., user=...)`) runs first and yields
400, then a missing recipe yields 404, otherwise the row is created and
201 returned with the minified recipe. -/
def _create_object (db : DB) (k : RelKind) (userId recipePk : Nat) :
    DB × Nat :=
  if (db.relList k).any (fun pr => pr.1 == userId && pr.2 == recipePk) then
    (db, 400)
  else if db.recipeExists recipePk then
    (db.setRel k ((db.relList k) ++ [(userId, recipePk)]), 201)
  else
    (db, 404)

/-- `RecipeViewSet._delete_object` (views.py 167-189): the recipe is
resolved first (404 when missing), a missing relation row yields 400,
otherwise the matching rows are deleted and 204 returned. -/
def _delete_object (db : DB) (k : RelKind) (userId recipePk : Nat) :
    DB × Nat :=
  if db.recipeExists recipePk then
    if (db.relList k).any (fun pr => pr.1 == userId && pr.2 == recipePk) then
      (db.setRel k
        ((db.relList k).filter
          (fun pr => !(pr.1 == userId && pr.2 == recipePk))), 204)
    else
      (db, 400)
  else
    (db, 404)

/-- `RecipeViewSet._obj_operation` (views.py 191-196): dispatch on the
request method (the route only admits POST and DELETE). -/
def _obj_operation (db : DB) (k : RelKind) (m : Method)
    (userId recipePk : Nat) : DB × Nat :=
  match m with
  | .DELETE => _delete_object db k userId recipePk
  | _ => _create_object db k userId recipePk

end RecipeViewSet

namespace UserViewSet

/-- `UserViewSet.subscribe` (views.py 232-278): resolve the author
(404 when missing), reject a self-(un)subscription with 400, then on
POST reject an existing follow with 400 or create the row with 201, and
otherwise (DELETE) remove an existing follow with 204 or answer 400. -/
def subscribe (db : DB) (m : Method) (userId targetId : Nat) : DB × Nat :=
  if db.users.contains targetId then
    if userId == targetId then
      (db, 400)
    else
      match m with
      | .POST =>
        if db.follows.any (fun pr => pr.1 == targetId && pr.2 == userId) then
          (db, 400)
        else
          ({ db with follows := db.follows ++ [(targetId, userId)] }, 201)
      | _ =>
        if db.follows.any (fun pr => pr.1 == targetId && pr.2 == userId) then
          ({ db with
             follows := db.follows.filter
               (fun pr => !(pr.1 == targetId && pr.2 == userId)) }, 204)
        else
          (db, 400)
  else
    (db, 404)

end UserViewSet

/-- One element of the `ingredients` queryset of
`download_shopping_cart` (views.py 70-76): the `values(...)` projection
`amount`, `name=F('ingredient__name')`,
`units=F('ingredient__measurement_unit')`. -/
structure ShoppingRow where
  amount : Int
  name : String
  units : String
deriving DecidableEq, Repr

namespace RecipeViewSet

/-- The queryset
`IngredientAmount.objects.filter(recipe__carts__user=user).values(...)`:
every amount row whose recipe sits in the requesting user's cart, joined
to its ingredient's name and unit.  The `(user, recipe)` uniqueness
constraint on `Cart` makes the join multiplicity one, so an existence
check suffices; the list order models the queryset's iteration order. -/
def cartIngredientRows (db : DB) (userId : Nat) : List ShoppingRow :=
  (db.ingredientAmounts.filter
    (fun r => db.carts.any (fun c => c.1 == userId && c.2 == r.recipe))).filterMap
    (fun r =>
      (db.ingredients.find? (fun i => i.id == r.ingredient)).map
        (fun i => { amount := r.amount, name := i.name,
                    units := i.measurement_unit }))

/-- One iteration of the aggregation loop (views.py 79-86): the `result`
dict is keyed by the ingredient NAME only; a fresh name appends an entry
with this row's amount and units, a known name has the amount added and
the units left untouched.  The association list models the
insertion-ordered Python dict. -/
def aggStep (result : List (String × Int × String)) (row : ShoppingRow) :
    List (String × Int × String) :=
  if result.any (fun kv => kv.1 == row.name) then
    result.map (fun kv =>
      if kv.1 == row.name then (kv.1, kv.2.1 + row.amount, kv.2.2) else kv)
  else
    result ++ [(row.name, row.amount, row.units)]

/-- The whole aggregation loop over the queryset. -/
def aggregateRows (rows : List ShoppingRow) : List (String × Int × String) :=
  rows.foldl aggStep []

/-- `RecipeViewSet.download_shopping_cart` (views.py 46-107): an empty
`result` dict answers 400, otherwise the aggregated entries are rendered
to the plain-text attachment, one line per entry, in insertion order. -/
def download_shopping_cart (db : DB) (userId : Nat) :
    Except Nat (List (String × Int × String)) :=
  let result := aggregateRows (cartIngredientRows db userId)
  if result.isEmpty then .error 400 else .ok result

end RecipeViewSet

/-- Sum of the amounts of the queryset rows carrying a given ingredient
name. -/
def sumNamed (nm : String) (rows : List ShoppingRow) : Int :=
  ((rows.filter (fun r => r.name == nm)).map (fun r => r.amount)).sum

/-- A small concrete database state: two users, one ingredient, one tag,
one recipe of user 1 with a single amount row. -/
def cexDB : DB :=
  { users := [1, 2],
    ingredients := [{ id := 1, name := "sugar", measurement_unit := "g" }],
    tags := [1],
    recipes := [{ id := 1, author := 1, name := "cake", text := "desc",
                  cooking_time := 10, image := "img" }],
    recipeTags := [(1, 1)],
    ingredientAmounts := [{ recipe := 1, ingredient := 1, amount := 5 }],
    favorites := [], carts := [], follows := [] }

/-- A PATCH body whose `ingredients` value is present but an empty
list. -/
def emptyListPayload : RecipePayload :=
  { ingredients := some [], tags := none, name := none, text := none,
    cooking_time := none, image := none }

/-- A PATCH body whose single ingredient entry passes the serializer's
validation (the id exists, the amount is at least 1) but whose amount
does not fit the 32-bit `integer` column of the `PositiveIntegerField`,
so that the `bulk_create` in `update` fails after the delete. -/
def overflowPayload : RecipePayload :=
  { ingredients := some [{ id := 1, amount := 2147483648 }], tags := none,
    name := none, text := none, cooking_time := none, image := none }

/-! ## Theorems -/

/-- Claim C4: for every recipe and every unauthenticated (anonymous)
requester, the serialized `is_favorited` and `is_in_shopping_cart`
booleans are both false, regardless of the contents of the Favorite and
Cart stores. -/
theorem anonymous_flags_false (db : DB) (recipeId : Nat) :
    CartFavoriteFlagsMixin.get_is_favorited db RequestUser.anonymous recipeId
        = false ∧
    CartFavoriteFlagsMixin.get_is_in_shopping_cart db RequestUser.anonymous
        recipeId = false :=
  ⟨rfl, rfl⟩

/-- Claim C6: for every (user, recipe) pair and each of the Favorite and
Cart relations, adding an already-present pair answers 400 and leaves
the store unchanged; removing an absent pair (the recipe existing)
answers 400 and leaves the store unchanged; a successful add answers 201
and a successful remove 204. -/
theorem favorite_cart_toggle_statuses (db : DB) (k : RelKind) (u rid : Nat) :
    ((db.relList k).any (fun pr => pr.1 == u && pr.2 == rid) = true →
      RecipeViewSet._create_object db k u rid = (db, 400)) ∧
    (db.recipeExists rid = true →
      (db.relList k).any (fun pr => pr.1 == u && pr.2 == rid) = false →
      RecipeViewSet._delete_object db k u rid = (db, 400)) ∧
    (db.recipeExists rid = true →
      (db.relList k).any (fun pr => pr.1 == u && pr.2 == rid) = false →
      RecipeViewSet._create_object db k u rid =
        (db.setRel k ((db.relList k) ++ [(u, rid)]), 201)) ∧
    (db.recipeExists rid = true →
      (db.relList k).any (fun pr => pr.1 == u && pr.2 == rid) = true →
      RecipeViewSet._delete_object db k u rid =
        (db.setRel k ((db.relList k).filter
          (fun pr => !(pr.1 == u && pr.2 == rid))), 204)) := by
  refine ⟨?_, ?_, ?_, ?_⟩
  · intro h1
    simp [RecipeViewSet._create_object, h1]
  · intro h1 h2
    simp [RecipeViewSet._delete_object, h1, h2]
  · intro h1 h2
    simp [RecipeViewSet._create_object, h1, h2]
  · intro h1 h2
    simp [RecipeViewSet._delete_object, h1, h2]

/-- Closed instance of `favorite_cart_toggle_statuses`, discharging each
hypothesis at a concrete state. -/
theorem favorite_cart_toggle_statuses_inst :
    (RecipeViewSet._create_object { cexDB with favorites := [(1, 1)] }
        RelKind.favorite 1 1 = ({ cexDB with favorites := [(1, 1)] }, 400)) ∧
    (RecipeViewSet._delete_object cexDB RelKind.cart 1 1 = (cexDB, 400)) ∧
    (RecipeViewSet._create_object cexDB RelKind.cart 1 1 =
      (cexDB.setRel RelKind.cart (cexDB.relList RelKind.cart ++ [(1, 1)]), 201)) ∧
    (RecipeViewSet._delete_object { cexDB with favorites := [(1, 1)] }
        RelKind.favorite 1 1 =
      ({ cexDB with favorites := [(1, 1)] }.setRel RelKind.favorite
        (({ cexDB with favorites := [(1, 1)] }.relList RelKind.favorite).filter
          (fun pr => !(pr.1 == 1 && pr.2 == 1))), 204)) :=
  ⟨(favorite_cart_toggle_statuses _ RelKind.favorite 1 1).1 (by decide),
   (favorite_cart_toggle_statuses cexDB RelKind.cart 1 1).2.1 (by decide)
     (by decide),
   (favorite_cart_toggle_statuses cexDB RelKind.cart 1 1).2.2.1 (by decide)
     (by decide),
   (favorite_cart_toggle_statuses _ RelKind.favorite 1 1).2.2.2 (by decide)
     (by decide)⟩

/-- Claim C7: a subscribe or unsubscribe request targeting the
requesting user fails with 400 and touches no Follow row, and the
subscribe endpoint preserves the invariant that no Follow row has its
author equal to its follower. -/
theorem no_self_follow (db : DB) (m : Method) (u t : Nat) :
    (db.users.contains u = true →
      UserViewSet.subscribe db m u u = (db, 400)) ∧
    (db.follows.any (fun pr => pr.1 == pr.2) = false →
      ((UserViewSet.subscribe db m u t).1.follows.any
        (fun pr => pr.1 == pr.2)) = false) := by
  constructor
  · intro h
    have h1 : u ∈ db.users := by simpa using h
    simp [UserViewSet.subscribe, h1]
  · intro h
    rw [List.any_eq_false] at h
    rw [List.any_eq_false]
    by_cases hmem : t ∈ db.users
    · by_cases heq : u = t
      · simpa [UserViewSet.subscribe, hmem, heq] using h
      · cases m with
        | POST =>
          by_cases hfol : (t, u) ∈ db.follows
          · simpa [UserViewSet.subscribe, hmem, heq, hfol] using h
          · simp only [UserViewSet.subscribe]
            simp [hmem, heq, hfol]
            intro a b hab
            rcases hab with hmem2 | ⟨rfl, rfl⟩
            · have := h (a, b) hmem2
              simp at this
              exact this
            · exact fun hc => heq hc.symm
        | PATCH =>
          by_cases hfol : (t, u) ∈ db.follows
          · simp only [UserViewSet.subscribe]
            simp [hmem, heq, hfol]
            intro a b hab
            have := h (a, b) hab
            simp at this
            tauto
          · simpa [UserViewSet.subscribe, hmem, heq, hfol] using h
        | DELETE =>
          by_cases hfol : (t, u) ∈ db.follows
          · simp only [UserViewSet.subscribe]
            simp [hmem, heq, hfol]
            intro a b hab
            have := h (a, b) hab
            simp at this
            tauto
          · simpa [UserViewSet.subscribe, hmem, heq, hfol] using h
    · simpa [UserViewSet.subscribe, hmem] using h

/-- Closed instance of `no_self_follow` at a concrete state. -/
theorem no_self_follow_inst :
    UserViewSet.subscribe cexDB Method.POST 1 1 = (cexDB, 400) ∧
    ((UserViewSet.subscribe cexDB Method.POST 1 2).1.follows.any
      (fun pr => pr.1 == pr.2)) = false :=
  ⟨(no_self_follow cexDB Method.POST 1 1).1 (by decide),
   (no_self_follow cexDB Method.POST 1 2).2 (by decide)⟩

/-- Claim C1, counterexample: a partial update whose payload passes the
serializer's validation (the ingredient exists, the amount is at least
1) but whose amount overflows the 32-bit `integer` column fails in
`bulk_create` AFTER the delete of the existing amount rows has been
committed — `update` carries no `@transaction.atomic` — so the
operation fails yet the stores are NOT left unchanged: the recipe's
amount row is gone. -/
theorem recipe_update_not_transactional_cex :
    (recipePartialUpdateFlow cexDB 1 overflowPayload).2 =
      Except.error (ApiError.serverError DBError.constraintViolation) ∧
    (recipePartialUpdateFlow cexDB 1 overflowPayload).1.ingredientAmounts
      = [] ∧
    cexDB.ingredientAmounts = [{ recipe := 1, ingredient := 1, amount := 5 }] ∧
    (recipePartialUpdateFlow cexDB 1 overflowPayload).1 ≠ cexDB := by
  refine ⟨rfl, rfl, rfl, by decide⟩

/-- Claim C1, amended: recipe creation and the favorite/cart/follow
toggles leave every store unchanged whenever the operation fails
(creation runs under `@transaction.atomic`; each toggle performs at most
one row write after its checks).  Recipe partial update is NOT wrapped
in a transaction: a failure after the amount-row delete leaves that
delete committed (see `recipe_update_not_transactional_cex`). -/
theorem atomic_write_flows_except_update (db : DB) :
    (∀ (p : RecipePayload) (author newId : Nat) (e : ApiError),
      (recipeCreateFlow db p author newId).2 = Except.error e →
      (recipeCreateFlow db p author newId).1 = db) ∧
    (∀ (k : RelKind) (m : Method) (u rid : Nat),
      (RecipeViewSet._obj_operation db k m u rid).2 ≠ 201 →
      (RecipeViewSet._obj_operation db k m u rid).2 ≠ 204 →
      (RecipeViewSet._obj_operation db k m u rid).1 = db) ∧
    (∀ (m : Method) (u t : Nat),
      (UserViewSet.subscribe db m u t).2 ≠ 201 →
      (UserViewSet.subscribe db m u t).2 ≠ 204 →
      (UserViewSet.subscribe db m u t).1 = db) := by
  refine ⟨?_, ?_, ?_⟩
  · intro p author newId e herr
    unfold recipeCreateFlow at herr ⊢
    cases hv : CreateRecipeSerializer.validate db Method.POST p with
    | error e1 => rfl
    | ok u0 =>
      cases hc : CreateRecipeSerializer.create db p author newId with
      | error e2 => rfl
      | ok db1 =>
        rw [hv, hc] at herr
        simp at herr
  · intro k m u rid h1 h2
    cases m <;>
      simp only [RecipeViewSet._obj_operation] at h1 h2 ⊢ <;>
      first
      | (unfold RecipeViewSet._create_object at h1 h2 ⊢ <;>
         split at h1 <;> simp_all <;> split at h1 <;> simp_all)
      | (unfold RecipeViewSet._delete_object at h1 h2 ⊢ <;>
         split at h1 <;> simp_all <;> split at h1 <;> simp_all)
  · intro m u t h1 h2
    by_cases hmem : t ∈ db.users
    · by_cases heq : u = t
      · simp [UserViewSet.subscribe, hmem, heq]
      · cases m with
        | POST =>
          by_cases hfol : (t, u) ∈ db.follows
          · simp [UserViewSet.subscribe, hmem, heq, hfol]
          · exact absurd (by simp [UserViewSet.subscribe, hmem, heq, hfol]) h1
        | PATCH =>
          by_cases hfol : (t, u) ∈ db.follows
          · exact absurd (by simp [UserViewSet.subscribe, hmem, heq, hfol]) h2
          · simp [UserViewSet.subscribe, hmem, heq, hfol]
        | DELETE =>
          by_cases hfol : (t, u) ∈ db.follows
          · exact absurd (by simp [UserViewSet.subscribe, hmem, heq, hfol]) h2
          · simp [UserViewSet.subscribe, hmem, heq, hfol]
    · simp [UserViewSet.subscribe, hmem]

/-- Closed instance of `atomic_write_flows_except_update` at concrete
failing operations. -/
theorem atomic_write_flows_except_update_inst :
    (recipeCreateFlow cexDB
      { ingredients := none, tags := none, name := none, text := none,
        cooking_time := none, image := none } 1 2).1 = cexDB ∧
    (RecipeViewSet._obj_operation cexDB RelKind.cart Method.DELETE 1 1).1
      = cexDB ∧
    (UserViewSet.subscribe cexDB Method.POST 1 1).1 = cexDB :=
  ⟨(atomic_write_flows_except_update cexDB).1 _ 1 2
      (ApiError.validation "errors" "empty request") rfl,
   (atomic_write_flows_except_update cexDB).2.1 RelKind.cart Method.DELETE 1 1
      (by decide) (by decide),
   (atomic_write_flows_except_update cexDB).2.2 Method.POST 1 1
      (by decide) (by decide)⟩

/-- Claim C9: a recipe-create request with an empty body fails with a
validation error; a non-empty create payload whose `tags` value is
absent, or whose `ingredients` value is absent, fails with a validation
error whose detail is keyed by that missing field; the database is
unchanged in every case. -/
theorem create_missing_fields_rejected (db : DB) (p : RecipePayload)
    (author newId : Nat) :
    (p.isEmpty = true →
      recipeCreateFlow db p author newId =
        (db, Except.error (ApiError.validation "errors" "empty request"))) ∧
    (p.isEmpty = false → p.tags = none →
      recipeCreateFlow db p author newId =
        (db, Except.error
          (ApiError.validation "tags" "field cannot be empty"))) ∧
    (p.isEmpty = false → p.tags.isSome = true → p.ingredients = none →
      recipeCreateFlow db p author newId =
        (db, Except.error
          (ApiError.validation "ingredients" "field cannot be empty"))) := by
  refine ⟨?_, ?_, ?_⟩
  · intro h
    simp [recipeCreateFlow, CreateRecipeSerializer.validate, h]
  · intro h ht
    simp [recipeCreateFlow, CreateRecipeSerializer.validate, h, ht]
  · intro h ht hi
    obtain ⟨ts, hts⟩ := Option.isSome_iff_exists.mp ht
    simp [recipeCreateFlow, CreateRecipeSerializer.validate, h, hts, hi]

/-- Closed instance of `create_missing_fields_rejected`: each clause
applied at a concrete payload. -/
theorem create_missing_fields_rejected_inst :
    (recipeCreateFlow cexDB
      { ingredients := none, tags := none, name := none, text := none,
        cooking_time := none, image := none } 1 2 =
      (cexDB, Except.error (ApiError.validation "errors" "empty request"))) ∧
    (recipeCreateFlow cexDB
      { ingredients := some [{ id := 1, amount := 3 }], tags := none,
        name := none, text := none, cooking_time := none, image := none }
      1 2 =
      (cexDB, Except.error
        (ApiError.validation "tags" "field cannot be empty"))) ∧
    (recipeCreateFlow cexDB
      { ingredients := none, tags := some [1], name := none, text := none,
        cooking_time := none, image := none } 1 2 =
      (cexDB, Except.error
        (ApiError.validation "ingredients" "field cannot be empty"))) :=
  ⟨(create_missing_fields_rejected cexDB _ 1 2).1 rfl,
   (create_missing_fields_rejected cexDB _ 1 2).2.1 rfl rfl,
   (create_missing_fields_rejected cexDB _ 1 2).2.2 rfl rfl rfl⟩

/-- A PATCH payload carrying none of the plain fields leaves the recipe
rows untouched in the field-assignment tail of `update`. -/
theorem updateFieldsStep_noop (db : DB) (rid : Nat) (p : RecipePayload)
    (h1 : p.name = none) (h2 : p.text = none) (h3 : p.cooking_time = none)
    (h4 : p.image = none) :
    CreateRecipeSerializer.updateFieldsStep db rid p = (db, Except.ok ()) := by
  unfold CreateRecipeSerializer.updateFieldsStep
  rw [h1, h2, h3, h4]
  have hfun : ∀ r : Recipe,
      (if r.id == rid then
        { r with cooking_time := (none : Option Int).getD r.cooking_time,
                 image := (none : Option String).getD r.image,
                 name := (none : Option String).getD r.name,
                 text := (none : Option String).getD r.text }
      else r) = r := by
    intro r
    simp
  simp only [hfun, List.map_id']

/-- Claim C2, counterexample: a PATCH whose `ingredients` value is
present but the empty list.  The empty list does not pass the
ingredient-list validation (clause four), yet the flow succeeds (clause
one) and the recipe's existing amount rows are deleted (clauses two and
three): the walrus `if ingredients := initial_data.get(...):` treats the
empty list as falsy and skips `_validate_ingredients`, while `update`
tests `is not None` and performs the delete-and-replace. -/
theorem update_skips_empty_list_validation_cex :
    (recipePartialUpdateFlow cexDB 1 emptyListPayload).2 = Except.ok () ∧
    (recipePartialUpdateFlow cexDB 1 emptyListPayload).1.ingredientAmounts
      = [] ∧
    cexDB.ingredientAmounts = [{ recipe := 1, ingredient := 1, amount := 5 }] ∧
    CreateRecipeSerializer._validate_ingredients cexDB [] =
      Except.error
        (ApiError.validation "ingredients"
          "at least one ingredient required") :=
  ⟨rfl, rfl, rfl, rfl⟩

/-- Claim C2, amended: a field present in a PATCH payload with a
NON-EMPTY list value undergoes the same validation as at create before
any state is changed (clauses one and two); a field present with an
EMPTY list value skips validation, and the destructive write still
happens: the recipe's amount rows are deleted (clause three) or its tag
association is cleared (clause four). -/
theorem update_validates_nonempty_fields_before_writes (db : DB) (rid : Nat) :
    (∀ (p : RecipePayload) (l : List IngredientEntry) (err : ApiError),
      db.recipeExists rid = true → p.ingredients = some l → l ≠ [] →
      CreateRecipeSerializer._validate_ingredients db l = Except.error err →
      recipePartialUpdateFlow db rid p = (db, Except.error err)) ∧
    (∀ (p : RecipePayload) (ts : List Nat) (err : ApiError),
      db.recipeExists rid = true → p.ingredients = none → p.tags = some ts →
      ts ≠ [] →
      CreateRecipeSerializer._validate_tags db ts = Except.error err →
      recipePartialUpdateFlow db rid p = (db, Except.error err)) ∧
    (db.recipeExists rid = true →
      recipePartialUpdateFlow db rid emptyListPayload =
        ({ db with ingredientAmounts :=
             db.ingredientAmounts.filter (fun r => !(r.recipe == rid)) },
         Except.ok ())) ∧
    (db.recipeExists rid = true →
      recipePartialUpdateFlow db rid
        { ingredients := none, tags := some [], name := none, text := none,
          cooking_time := none, image := none } =
        ({ db with recipeTags :=
             db.recipeTags.filter (fun rt => !(rt.1 == rid)) },
         Except.ok ())) := by
  refine ⟨?_, ?_, ?_, ?_⟩
  · intro p l err hex hl hne hval
    have hemp : p.isEmpty = false := by
      simp [RecipePayload.isEmpty, hl]
    simp [recipePartialUpdateFlow, CreateRecipeSerializer.validate, hex,
          hemp, hl, hne, hval]
  · intro p ts err hex hi ht hne hval
    have hemp : p.isEmpty = false := by
      simp [RecipePayload.isEmpty, ht]
    simp [recipePartialUpdateFlow, CreateRecipeSerializer.validate, hex,
          hemp, hi, ht, hne, hval]
  · intro hex
    have hflow :
        recipePartialUpdateFlow db rid emptyListPayload =
          CreateRecipeSerializer.update db rid emptyListPayload := by
      simp [recipePartialUpdateFlow, CreateRecipeSerializer.validate, hex,
            emptyListPayload, RecipePayload.isEmpty]
    rw [hflow]
    exact updateFieldsStep_noop _ rid _ rfl rfl rfl rfl
  · intro hex
    have hflow :
        recipePartialUpdateFlow db rid
          { ingredients := none, tags := some [], name := none, text := none,
            cooking_time := none, image := none } =
          CreateRecipeSerializer.update db rid
            { ingredients := none, tags := some [], name := none,
              text := none, cooking_time := none, image := none } := by
      simp [recipePartialUpdateFlow, CreateRecipeSerializer.validate, hex,
            RecipePayload.isEmpty]
    rw [hflow]
    have hkey :
        ({ db with recipeTags :=
            ((db.recipeTags.filter (fun rt => !(rt.1 == rid))).filter
              (fun rt => !(rt.1 == rid))) ++
              List.map (fun t => (rid, t)) ([] : List Nat) } : DB) =
          { db with recipeTags :=
              db.recipeTags.filter (fun rt => !(rt.1 == rid)) } := by
      simp
    calc
      CreateRecipeSerializer.update db rid
          { ingredients := none, tags := some [], name := none, text := none,
            cooking_time := none, image := none }
          = CreateRecipeSerializer.updateFieldsStep
              { db with recipeTags :=
                  ((db.recipeTags.filter (fun rt => !(rt.1 == rid))).filter
                    (fun rt => !(rt.1 == rid))) ++
                    List.map (fun t => (rid, t)) ([] : List Nat) } rid
              { ingredients := none, tags := some [], name := none,
                text := none, cooking_time := none, image := none } := rfl
      _ = CreateRecipeSerializer.updateFieldsStep
              { db with recipeTags :=
                  db.recipeTags.filter (fun rt => !(rt.1 == rid)) } rid
              { ingredients := none, tags := some [], name := none,
                text := none, cooking_time := none, image := none } := by
            rw [hkey]
      _ = ({ db with recipeTags :=
              db.recipeTags.filter (fun rt => !(rt.1 == rid)) },
            Except.ok ()) :=
            updateFieldsStep_noop _ rid _ rfl rfl rfl rfl

/-- Closed instance of `update_validates_nonempty_fields_before_writes`
at concrete payloads. -/
theorem update_validates_nonempty_fields_before_writes_inst :
    (recipePartialUpdateFlow cexDB 1
      { ingredients := some [{ id := 1, amount := 0 }], tags := none,
        name := none, text := none, cooking_time := none, image := none } =
      (cexDB, Except.error
        (ApiError.validation "ingredients" "invalid amount"))) ∧
    (recipePartialUpdateFlow cexDB 1
      { ingredients := none, tags := some [2, 2], name := none,
        text := none, cooking_time := none, image := none } =
      (cexDB, Except.error (ApiError.notFound "tag"))) ∧
    (recipePartialUpdateFlow cexDB 1 emptyListPayload =
      ({ cexDB with ingredientAmounts :=
          cexDB.ingredientAmounts.filter (fun r => !(r.recipe == 1)) },
        Except.ok ())) ∧
    (recipePartialUpdateFlow cexDB 1
      { ingredients := none, tags := some [], name := none, text := none,
        cooking_time := none, image := none } =
      ({ cexDB with recipeTags :=
          cexDB.recipeTags.filter (fun rt => !(rt.1 == 1)) },
        Except.ok ())) :=
  ⟨(update_validates_nonempty_fields_before_writes cexDB 1).1 _ _ _
      (by decide) rfl (by decide) rfl,
   (update_validates_nonempty_fields_before_writes cexDB 1).2.1 _ _ _
      (by decide) rfl rfl (by decide) rfl,
   (update_validates_nonempty_fields_before_writes cexDB 1).2.2.1
      (by decide),
   (update_validates_nonempty_fields_before_writes cexDB 1).2.2.2
      (by decide)⟩

/-- An ingredient found by primary key carries that key. -/
theorem findIngredient_id {db : DB} {pk : Nat} {ing : Ingredient}
    (h : db.findIngredient pk = some ing) : ing.id = pk := by
  have h2 : List.find? (fun i => i.id == pk) db.ingredients = some ing := h
  have h3 := List.find?_some h2
  simpa using h3

/-- Unfolding equation of the loop at a cons cell whose head id
resolves. -/
theorem loop_cons_found (db : DB) (used : List Ingredient)
    (x : IngredientEntry) (rest : List IngredientEntry) (ingx : Ingredient)
    (hfind : db.findIngredient x.id = some ingx) :
    CreateRecipeSerializer.validateIngredientsLoop db used (x :: rest) =
      if used.any (fun y => y.id == ingx.id) then
        Except.error (ApiError.validation "ingredients" "cannot repeat")
      else if x.amount < 1 then
        Except.error (ApiError.validation "ingredients" "invalid amount")
      else
        CreateRecipeSerializer.validateIngredientsLoop db
          (used ++ [ingx]) rest := by
  conv_lhs => rw [CreateRecipeSerializer.validateIngredientsLoop]
  rw [hfind]

/-- Unfolding equation of the loop at a cons cell whose head id does not
resolve. -/
theorem loop_cons_notfound (db : DB) (used : List Ingredient)
    (x : IngredientEntry) (rest : List IngredientEntry)
    (hfind : db.findIngredient x.id = none) :
    CreateRecipeSerializer.validateIngredientsLoop db used (x :: rest) =
      Except.error (ApiError.notFound "ingredient") := by
  conv_lhs => rw [CreateRecipeSerializer.validateIngredientsLoop]
  rw [hfind]

/-- If some existing ingredient id occurs at least twice among the
entries (counting a hit already in `used_ingredients`), the validation
loop cannot succeed. -/
theorem loop_ok_no_dup {db : DB} {d : Nat} {ing : Ingredient}
    (hd : db.findIngredient d = some ing) :
    ∀ (l : List IngredientEntry) (used : List Ingredient),
      2 ≤ (l.map (fun e => e.id)).count d +
          (if used.any (fun x => x.id == d) then 1 else 0) →
      CreateRecipeSerializer.validateIngredientsLoop db used l ≠
        Except.ok () := by
  intro l
  induction l with
  | nil =>
    intro used hcnt
    simp only [List.map_nil, List.count_nil, Nat.zero_add] at hcnt
    split at hcnt <;> omega
  | cons x rest ih =>
    intro used hcnt hok
    cases hfind : db.findIngredient x.id with
    | none =>
      rw [loop_cons_notfound db used x rest hfind] at hok
      exact absurd hok (by simp)
    | some ingx =>
      rw [loop_cons_found db used x rest ingx hfind] at hok
      by_cases hdup : used.any (fun y => y.id == ingx.id) = true
      · rw [if_pos hdup] at hok; exact absurd hok (by simp)
      · rw [if_neg hdup] at hok
        by_cases hamt : x.amount < 1
        · rw [if_pos hamt] at hok; exact absurd hok (by simp)
        · rw [if_neg hamt] at hok
          have hingx : ingx.id = x.id := findIngredient_id hfind
          have hcnt2 : ((x :: rest).map (fun e => e.id)).count d =
              (rest.map (fun e => e.id)).count d +
                (if x.id == d then 1 else 0) := by
            simp [List.count_cons]
          rw [hcnt2] at hcnt
          by_cases heq : x.id = d
          · have hu0 : used.any (fun y => y.id == d) = false := by
              rw [← heq, ← hingx]
              simpa using hdup
            have hucons :
                (used ++ [ingx]).any (fun y => y.id == d) = true := by
              simp [List.any_append, hingx, heq]
            apply ih (used ++ [ingx]) ?_ hok
            rw [hucons]
            rw [hu0] at hcnt
            have h1 : (if (x.id == d) = true then 1 else 0) = 1 := by
              simp [heq]
            have h0 : (if (false : Bool) = true then 1 else 0) = 0 := by
              simp
            have htrue : (if (true : Bool) = true then 1 else 0) = 1 := by
              simp
            rw [h1, h0] at hcnt
            rw [htrue]
            omega
          · have hucons :
                (used ++ [ingx]).any (fun y => y.id == d) =
                  used.any (fun y => y.id == d) := by
              simp [List.any_append, hingx, heq]
            apply ih (used ++ [ingx]) ?_ hok
            rw [hucons]
            have hz : (if (x.id == d) = true then 1 else 0) = 0 := by
              simp [heq]
            rw [hz] at hcnt
            omega


/-- When every entry's id resolves to an existing ingredient, the
validation loop either succeeds or fails with a `ValidationError` keyed
by the `ingredients` field. -/
theorem loop_err_validation {db : DB} :
    ∀ (l : List IngredientEntry) (used : List Ingredient),
      (∀ e ∈ l, (db.findIngredient e.id).isSome = true) →
      CreateRecipeSerializer.validateIngredientsLoop db used l =
        Except.ok () ∨
      ∃ m, CreateRecipeSerializer.validateIngredientsLoop db used l =
        Except.error (ApiError.validation "ingredients" m) := by
  intro l
  induction l with
  | nil => intro used _; exact Or.inl rfl
  | cons x rest ih =>
    intro used hex
    have hx := hex x (List.mem_cons_self x rest)
    obtain ⟨ingx, hingx⟩ := Option.isSome_iff_exists.mp hx
    rw [loop_cons_found db used x rest ingx hingx]
    by_cases hdup : used.any (fun y => y.id == ingx.id) = true
    · rw [if_pos hdup]; exact Or.inr ⟨_, rfl⟩
    · rw [if_neg hdup]
      by_cases hamt : x.amount < 1
      · rw [if_pos hamt]; exact Or.inr ⟨_, rfl⟩
      · rw [if_neg hamt]
        exact ih (used ++ [ingx])
          (fun e he => hex e (List.mem_cons_of_mem x he))

/-- If entry `k` has an amount below 1 and every id up to and including
entry `k` resolves, the validation loop fails with a `ValidationError`
keyed by the `ingredients` field, whatever the accumulator. -/
theorem loop_bad_amount_err {db : DB} :
    ∀ (l : List IngredientEntry) (k : Nat) (hk : k < l.length),
      (l.get ⟨k, hk⟩).amount < 1 →
      (∀ e ∈ l.take (k + 1), (db.findIngredient e.id).isSome = true) →
      ∀ used, ∃ m,
        CreateRecipeSerializer.validateIngredientsLoop db used l =
          Except.error (ApiError.validation "ingredients" m) := by
  intro l
  induction l with
  | nil => intro k hk; simp at hk
  | cons x rest ih =>
    intro k hk hamt hex used
    have hx : (db.findIngredient x.id).isSome = true := by
      apply hex
      rw [List.take_succ_cons]
      exact List.mem_cons_self x _
    obtain ⟨ingx, hingx⟩ := Option.isSome_iff_exists.mp hx
    rw [loop_cons_found db used x rest ingx hingx]
    by_cases hdup : used.any (fun y => y.id == ingx.id) = true
    · rw [if_pos hdup]; exact ⟨_, rfl⟩
    · rw [if_neg hdup]
      by_cases hamt0 : x.amount < 1
      · rw [if_pos hamt0]; exact ⟨_, rfl⟩
      · rw [if_neg hamt0]
        cases k with
        | zero => exact absurd hamt hamt0
        | succ k2 =>
          apply ih k2 (Nat.lt_of_succ_lt_succ hk)
          · simpa [List.get_cons_succ] using hamt
          · intro e he
            apply hex
            rw [List.take_succ_cons]
            exact List.mem_cons_of_mem x he

/-- Claim C3: a recipe-create payload whose `ingredients` list carries
the same (existing) ingredient id twice is rejected — the flow errors
and no recipe is created — and when every id of the list resolves, the
error is a `ValidationError`. -/
theorem create_duplicate_ingredient_rejected (db : DB) (p : RecipePayload)
    (author newId d : Nat) (l : List IngredientEntry) (ing : Ingredient)
    (hl : p.ingredients = some l)
    (hex : db.findIngredient d = some ing)
    (hdup : 2 ≤ (l.map (fun e => e.id)).count d) :
    (recipeCreateFlow db p author newId).1 = db ∧
    ∃ e, (recipeCreateFlow db p author newId).2 = Except.error e ∧
      ((∀ x ∈ l, (db.findIngredient x.id).isSome = true) →
        e.isValidation = true) := by
  have hloopne : CreateRecipeSerializer.validateIngredientsLoop db [] l ≠
      Except.ok () := by
    apply loop_ok_no_dup hex l []
    simpa using hdup
  have hlen : (l.length == 0) = false := by
    cases l with
    | nil => simp at hdup
    | cons a t => rfl
  have hlemp : l.isEmpty = false := by
    cases l with
    | nil => simp at hdup
    | cons a t => rfl
  obtain ⟨e1, he1⟩ : ∃ e1, CreateRecipeSerializer._validate_ingredients db l
      = Except.error e1 := by
    unfold CreateRecipeSerializer._validate_ingredients
    rw [if_neg (by simp [hlen])]
    cases hres : CreateRecipeSerializer.validateIngredientsLoop db [] l with
    | ok u => cases u; exact absurd hres hloopne
    | error e1 => exact ⟨e1, rfl⟩
  have hclass : (∀ x ∈ l, (db.findIngredient x.id).isSome = true) →
      e1.isValidation = true := by
    intro hall
    rcases loop_err_validation l [] hall with hok | ⟨m, hm⟩
    · exact absurd hok hloopne
    · have h2 : CreateRecipeSerializer._validate_ingredients db l =
          Except.error (ApiError.validation "ingredients" m) := by
        unfold CreateRecipeSerializer._validate_ingredients
        rw [if_neg (by simp [hlen])]
        exact hm
      rw [he1] at h2
      injection h2 with h3
      rw [h3]
      rfl
  obtain ⟨pi, pt, pn, ptx, pct, pim⟩ := p
  replace hl : pi = some l := hl
  subst hl
  cases pt with
  | none =>
    refine ⟨?_, ApiError.validation "tags" "field cannot be empty", ?_, ?_⟩
    · simp [recipeCreateFlow, CreateRecipeSerializer.validate,
            RecipePayload.isEmpty]
    · simp [recipeCreateFlow, CreateRecipeSerializer.validate,
            RecipePayload.isEmpty]
    · intro _; rfl
  | some ts =>
    have hval : CreateRecipeSerializer.validate db Method.POST
        { ingredients := some l, tags := some ts, name := pn, text := ptx,
          cooking_time := pct, image := pim } = Except.error e1 := by
      simp [CreateRecipeSerializer.validate, RecipePayload.isEmpty, hlemp,
            he1]
    constructor
    · simp [recipeCreateFlow, hval]
    · exact ⟨e1, by simp [recipeCreateFlow, hval], hclass⟩

/-- Closed instance of `create_duplicate_ingredient_rejected`: the
duplicate-id payload at a concrete state (the first conjunct comes from
the theorem, the remaining facts evaluate the flow there). -/
theorem create_duplicate_ingredient_rejected_inst :
    (recipeCreateFlow cexDB
      { ingredients := some [{ id := 1, amount := 3 }, { id := 1, amount := 4 }],
        tags := some [1], name := some "x", text := some "y",
        cooking_time := some 5, image := some "i" } 1 2).1 = cexDB ∧
    (recipeCreateFlow cexDB
      { ingredients := some [{ id := 1, amount := 3 }, { id := 1, amount := 4 }],
        tags := some [1], name := some "x", text := some "y",
        cooking_time := some 5, image := some "i" } 1 2).2 =
      Except.error (ApiError.validation "ingredients" "cannot repeat") :=
  ⟨(create_duplicate_ingredient_rejected cexDB _ 1 2 1 _
      { id := 1, name := "sugar", measurement_unit := "g" }
      rfl rfl (by decide)).1,
   rfl⟩

/-- Claim C8: a recipe-create payload in which some ingredient entry has
an amount below 1, while every id up to and including that entry exists
and is not a duplicate, is rejected with a `ValidationError` and no
recipe is created. -/
theorem create_nonpositive_amount_rejected (db : DB) (p : RecipePayload)
    (author newId k : Nat) (l : List IngredientEntry)
    (hl : p.ingredients = some l) (hk : k < l.length)
    (hamt : (l.get ⟨k, hk⟩).amount < 1)
    (hex : ∀ e ∈ l.take (k + 1), (db.findIngredient e.id).isSome = true)
    (hnodup : ((l.take (k + 1)).map (fun e => e.id)).Nodup) :
    (recipeCreateFlow db p author newId).1 = db ∧
    ∃ f m, (recipeCreateFlow db p author newId).2 =
      Except.error (ApiError.validation f m) := by
  have hlen : (l.length == 0) = false := by
    cases l with
    | nil => simp at hk
    | cons a t => rfl
  have hlemp : l.isEmpty = false := by
    cases l with
    | nil => simp at hk
    | cons a t => rfl
  obtain ⟨m, hm⟩ := loop_bad_amount_err l k hk hamt hex []
  have hvi : CreateRecipeSerializer._validate_ingredients db l =
      Except.error (ApiError.validation "ingredients" m) := by
    unfold CreateRecipeSerializer._validate_ingredients
    rw [if_neg (by simp [hlen])]
    exact hm
  obtain ⟨pi, pt, pn, ptx, pct, pim⟩ := p
  replace hl : pi = some l := hl
  subst hl
  cases pt with
  | none =>
    refine ⟨?_, "tags", "field cannot be empty", ?_⟩
    · simp [recipeCreateFlow, CreateRecipeSerializer.validate,
            RecipePayload.isEmpty]
    · simp [recipeCreateFlow, CreateRecipeSerializer.validate,
            RecipePayload.isEmpty]
  | some ts =>
    have hval : CreateRecipeSerializer.validate db Method.POST
        { ingredients := some l, tags := some ts, name := pn, text := ptx,
          cooking_time := pct, image := pim } =
        Except.error (ApiError.validation "ingredients" m) := by
      simp [CreateRecipeSerializer.validate, RecipePayload.isEmpty, hlemp,
            hvi]
    refine ⟨?_, "ingredients", m, ?_⟩
    · simp [recipeCreateFlow, hval]
    · simp [recipeCreateFlow, hval]

/-- Closed instance of `create_nonpositive_amount_rejected`: the
amount-zero payload at a concrete state (the first conjunct comes from
the theorem, the second evaluates the flow there). -/
theorem create_nonpositive_amount_rejected_inst :
    (recipeCreateFlow cexDB
      { ingredients := some [{ id := 1, amount := 0 }], tags := some [1],
        name := some "x", text := some "y", cooking_time := some 5,
        image := some "i" } 1 2).1 = cexDB ∧
    (recipeCreateFlow cexDB
      { ingredients := some [{ id := 1, amount := 0 }], tags := some [1],
        name := some "x", text := some "y", cooking_time := some 5,
        image := some "i" } 1 2).2 =
      Except.error (ApiError.validation "ingredients" "invalid amount") :=
  ⟨(create_nonpositive_amount_rejected cexDB _ 1 2 0 _ rfl (by decide)
      (by decide) (by decide) (by decide)).1,
   rfl⟩

/-- `sumNamed` over a cons cell. -/
theorem sumNamed_cons (nm : String) (row : ShoppingRow)
    (rows : List ShoppingRow) :
    sumNamed nm (row :: rows) =
      (if (row.name == nm) = true then row.amount else 0) +
        sumNamed nm rows := by
  by_cases h : (row.name == nm) = true
  · simp [sumNamed, List.filter_cons, h]
  · simp [sumNamed, List.filter_cons, h]

/-- Filtering by key commutes with the amount-update map of `aggStep`,
because the update preserves every key. -/
theorem filter_key_map (nm rn : String) (amt : Int) :
    ∀ (acc : List (String × Int × String)),
    (acc.map (fun kv => if kv.1 == rn then (kv.1, kv.2.1 + amt, kv.2.2)
      else kv)).filter (fun kv => kv.1 == nm) =
    (acc.filter (fun kv => kv.1 == nm)).map
      (fun kv => if kv.1 == rn then (kv.1, kv.2.1 + amt, kv.2.2) else kv)
  | [] => rfl
  | kv :: t => by
    have hfst : ((if kv.1 == rn then (kv.1, kv.2.1 + amt, kv.2.2) else kv)
        : String × Int × String).1 = kv.1 := by
      by_cases h : (kv.1 == rn) = true
      · rw [if_pos h]
      · rw [if_neg h]
    by_cases h : (kv.1 == nm) = true
    · simp only [List.map_cons, List.filter_cons, hfst, h, if_true]
      rw [filter_key_map nm rn amt t]
    · have hfalse : (kv.1 == nm) = false := by simpa using h
      simp only [List.map_cons, List.filter_cons, hfst, hfalse,
        Bool.false_eq_true, if_false]
      exact filter_key_map nm rn amt t

/-- Once the accumulator holds exactly one entry keyed `nm`, the rest of
the aggregation loop keeps a single `nm` entry, adds every further
`nm`-named amount to it and never touches its units. -/
theorem agg_filter_present (nm : String) :
    ∀ (rows : List ShoppingRow) (acc : List (String × Int × String))
      (s : String) (v : Int) (w : String),
      acc.filter (fun kv => kv.1 == nm) = [(s, v, w)] →
      ((rows.foldl RecipeViewSet.aggStep acc).filter
        (fun kv => kv.1 == nm)) = [(s, v + sumNamed nm rows, w)] := by
  intro rows
  induction rows with
  | nil =>
    intro acc s v w hacc
    rw [List.foldl_nil, hacc]
    simp [sumNamed]
  | cons row rest ih =>
    intro acc s v w hacc
    have hmem : (s, v, w) ∈ acc.filter (fun kv => kv.1 == nm) := by
      rw [hacc]
      exact List.mem_singleton.mpr rfl
    have hs : ((s, v, w).1 == nm) = true := (List.mem_filter.mp hmem).2
    have hsnm : s = nm := by simpa using hs
    rw [List.foldl_cons]
    by_cases hQ : (acc.any fun kv => kv.1 == row.name) = true
    · have hstep : RecipeViewSet.aggStep acc row =
          acc.map (fun kv => if kv.1 == row.name
            then (kv.1, kv.2.1 + row.amount, kv.2.2) else kv) := by
        unfold RecipeViewSet.aggStep
        rw [if_pos hQ]
      rw [hstep]
      by_cases hP : (row.name == nm) = true
      · have hrnm : row.name = nm := by simpa using hP
        have hacc2 : (acc.map (fun kv => if kv.1 == row.name
              then (kv.1, kv.2.1 + row.amount, kv.2.2) else kv)).filter
              (fun kv => kv.1 == nm) = [(s, v + row.amount, w)] := by
          rw [filter_key_map nm row.name row.amount acc, hacc]
          simp [hsnm, hrnm]
        rw [ih _ s (v + row.amount) w hacc2]
        rw [sumNamed_cons, if_pos hP, Int.add_assoc]
      · have hrne : nm ≠ row.name := by
          intro hc
          exact hP (by rw [← hc]; simp)
        have hacc2 : (acc.map (fun kv => if kv.1 == row.name
              then (kv.1, kv.2.1 + row.amount, kv.2.2) else kv)).filter
              (fun kv => kv.1 == nm) = [(s, v, w)] := by
          rw [filter_key_map nm row.name row.amount acc, hacc]
          simp [hsnm, hrne]
        rw [ih _ s v w hacc2]
        rw [sumNamed_cons, if_neg hP, Int.zero_add]
    · have hstep : RecipeViewSet.aggStep acc row =
          acc ++ [(row.name, row.amount, row.units)] := by
        unfold RecipeViewSet.aggStep
        rw [if_neg hQ]
      rw [hstep]
      by_cases hP : (row.name == nm) = true
      · exfalso
        apply hQ
        rw [List.any_eq_true]
        refine ⟨(s, v, w), (List.mem_filter.mp hmem).1, ?_⟩
        have hrnm : row.name = nm := by simpa using hP
        rw [hrnm]
        exact hs
      · have hacc2 : ((acc ++ [(row.name, row.amount, row.units)]).filter
              (fun kv => kv.1 == nm)) = [(s, v, w)] := by
          rw [List.filter_append, hacc]
          simp [hP]
        rw [ih _ s v w hacc2]
        rw [sumNamed_cons, if_neg hP, Int.zero_add]

/-- While the accumulator holds no entry keyed `nm`, the aggregation
loop creates the entry at the first `nm`-named row — taking that row's
units — and then accumulates the remaining `nm`-named amounts into
it. -/
theorem agg_filter_absent (nm : String) :
    ∀ (rows : List ShoppingRow) (acc : List (String × Int × String))
      (r0 : ShoppingRow) (rs : List ShoppingRow),
      acc.filter (fun kv => kv.1 == nm) = [] →
      rows.filter (fun r => r.name == nm) = r0 :: rs →
      ((rows.foldl RecipeViewSet.aggStep acc).filter
        (fun kv => kv.1 == nm)) = [(nm, sumNamed nm rows, r0.units)] := by
  intro rows
  induction rows with
  | nil =>
    intro acc r0 rs _ hrows
    simp at hrows
  | cons row rest ih =>
    intro acc r0 rs hacc hrows
    rw [List.foldl_cons]
    by_cases hP : (row.name == nm) = true
    · have hrnm : row.name = nm := by simpa using hP
      have hrows2 : row :: rest.filter (fun r => r.name == nm) = r0 :: rs := by
        rw [← hrows]
        rw [List.filter_cons]
        simp [hP]
      have hr0 : row = r0 := by
        injection hrows2 with h1 h2
      have hQ : (acc.any fun kv => kv.1 == row.name) = false := by
        rw [List.any_eq_false]
        intro x hx hxp
        have hx2 : x ∈ acc.filter (fun kv => kv.1 == nm) :=
          List.mem_filter.mpr ⟨hx, by rw [← hrnm]; exact hxp⟩
        rw [hacc] at hx2
        exact absurd hx2 (List.not_mem_nil x)
      have hstep : RecipeViewSet.aggStep acc row =
          acc ++ [(row.name, row.amount, row.units)] := by
        unfold RecipeViewSet.aggStep
        rw [if_neg (by simp [hQ])]
      rw [hstep]
      have hacc2 : ((acc ++ [(row.name, row.amount, row.units)]).filter
          (fun kv => kv.1 == nm)) = [(row.name, row.amount, row.units)] := by
        rw [List.filter_append, hacc]
        simp [hP]
      rw [agg_filter_present nm rest _ row.name row.amount row.units hacc2]
      rw [sumNamed_cons, if_pos hP, ← hr0, hrnm]
    · have hrows2 : rest.filter (fun r => r.name == nm) = r0 :: rs := by
        rw [← hrows]
        rw [List.filter_cons]
        simp [hP]
      by_cases hQ : (acc.any fun kv => kv.1 == row.name) = true
      · have hstep : RecipeViewSet.aggStep acc row =
            acc.map (fun kv => if kv.1 == row.name
              then (kv.1, kv.2.1 + row.amount, kv.2.2) else kv) := by
          unfold RecipeViewSet.aggStep
          rw [if_pos hQ]
        rw [hstep]
        have hacc2 : ((acc.map (fun kv => if kv.1 == row.name
              then (kv.1, kv.2.1 + row.amount, kv.2.2) else kv)).filter
              (fun kv => kv.1 == nm)) = [] := by
          rw [filter_key_map nm row.name row.amount acc, hacc]
          rfl
        rw [ih _ r0 rs hacc2 hrows2]
        rw [sumNamed_cons, if_neg hP, Int.zero_add]
      · have hstep : RecipeViewSet.aggStep acc row =
            acc ++ [(row.name, row.amount, row.units)] := by
          unfold RecipeViewSet.aggStep
          rw [if_neg hQ]
        rw [hstep]
        have hacc2 : ((acc ++ [(row.name, row.amount, row.units)]).filter
            (fun kv => kv.1 == nm)) = [] := by
          rw [List.filter_append, hacc]
          simp [hP]
        rw [ih _ r0 rs hacc2 hrows2]
        rw [sumNamed_cons, if_neg hP, Int.zero_add]

/-- Claim C5: the shopping-list aggregation keys entries by ingredient
name and sums amounts: when the rows of the user's cart queryset that
carry a given ingredient's name are exactly the two amount rows `a` and
`b` contributed by the two cart recipes sharing that catalog ingredient
(unit `un`), the downloaded list holds a single entry for it whose
amount is `a + b`. -/
theorem shopping_list_sums_shared_ingredient (db : DB) (u : Nat)
    (nm un : String) (a b : Int)
    (hrows : (RecipeViewSet.cartIngredientRows db u).filter
        (fun r => r.name == nm) =
      [{ amount := a, name := nm, units := un },
       { amount := b, name := nm, units := un }]) :
    ∃ entries, RecipeViewSet.download_shopping_cart db u =
        Except.ok entries ∧
      entries.filter (fun kv => kv.1 == nm) = [(nm, a + b, un)] := by
  have hagg := agg_filter_absent nm (RecipeViewSet.cartIngredientRows db u)
    [] { amount := a, name := nm, units := un }
    [{ amount := b, name := nm, units := un }] rfl hrows
  have hsum : sumNamed nm (RecipeViewSet.cartIngredientRows db u) =
      a + b := by
    unfold sumNamed
    rw [hrows]
    simp
  rw [hsum] at hagg
  have hagg2 : (RecipeViewSet.aggregateRows
      (RecipeViewSet.cartIngredientRows db u)).filter
      (fun kv => kv.1 == nm) = [(nm, a + b, un)] := hagg
  have hne : RecipeViewSet.aggregateRows
      (RecipeViewSet.cartIngredientRows db u) ≠ [] := by
    intro hc
    rw [hc] at hagg2
    simp at hagg2
  refine ⟨RecipeViewSet.aggregateRows
    (RecipeViewSet.cartIngredientRows db u), ?_, hagg2⟩
  simp only [RecipeViewSet.download_shopping_cart]
  rw [if_neg (by simpa [List.isEmpty_iff] using hne)]

/-- Closed instance of `shopping_list_sums_shared_ingredient`: a user
whose cart holds two recipes sharing one catalog ingredient (amounts 5
and 7) and a third amount row for a different ingredient. -/
theorem shopping_list_sums_shared_ingredient_inst :
    ∃ entries,
      RecipeViewSet.download_shopping_cart
        { users := [1],
          ingredients :=
            [{ id := 1, name := "sugar", measurement_unit := "g" },
             { id := 2, name := "milk", measurement_unit := "ml" }],
          tags := [],
          recipes :=
            [{ id := 1, author := 1, name := "a", text := "", cooking_time := 1,
               image := "" },
             { id := 2, author := 1, name := "b", text := "", cooking_time := 1,
               image := "" }],
          recipeTags := [],
          ingredientAmounts :=
            [{ recipe := 1, ingredient := 1, amount := 5 },
             { recipe := 2, ingredient := 1, amount := 7 },
             { recipe := 2, ingredient := 2, amount := 9 }],
          favorites := [], carts := [(1, 1), (1, 2)], follows := [] } 1 =
        Except.ok entries ∧
      entries.filter (fun kv => kv.1 == "sugar") =
        [("sugar", (5 : Int) + 7, "g")] :=
  shopping_list_sums_shared_ingredient _ 1 "sugar" "g" 5 7 (by decide)

/-- Claim C10: the shopping-list aggregation keys by ingredient NAME
alone, not by (name, unit): with two distinct catalog ingredients that
share a name but differ in measurement unit, each referenced by one of
the user's two cart recipes, the downloaded list holds a single merged
entry whose amount is the sum of both and whose units are those of the
row encountered first. -/
theorem shopping_list_keyed_by_name_only (u r1 r2 i1 i2 auth : Nat)
    (a b : Int) (nm un1 un2 : String) (hi : i1 ≠ i2) (hu : un1 ≠ un2) :
    RecipeViewSet.download_shopping_cart
      { users := [u],
        ingredients :=
          [{ id := i1, name := nm, measurement_unit := un1 },
           { id := i2, name := nm, measurement_unit := un2 }],
        tags := [],
        recipes :=
          [{ id := r1, author := auth, name := "", text := "",
             cooking_time := 1, image := "" },
           { id := r2, author := auth, name := "", text := "",
             cooking_time := 1, image := "" }],
        recipeTags := [],
        ingredientAmounts :=
          [{ recipe := r1, ingredient := i1, amount := a },
           { recipe := r2, ingredient := i2, amount := b }],
        favorites := [], carts := [(u, r1), (u, r2)], follows := [] } u =
      Except.ok [(nm, a + b, un1)] := by
  have hbeq : (i1 == i2) = false := beq_eq_false_iff_ne.mpr hi
  simp [RecipeViewSet.download_shopping_cart,
        RecipeViewSet.cartIngredientRows, RecipeViewSet.aggregateRows,
        RecipeViewSet.aggStep, hbeq]

/-- Closed instance of `shopping_list_keyed_by_name_only` at concrete
ids, names and units. -/
theorem shopping_list_keyed_by_name_only_inst :
    RecipeViewSet.download_shopping_cart
      { users := [1],
        ingredients :=
          [{ id := 1, name := "salt", measurement_unit := "g" },
           { id := 2, name := "salt", measurement_unit := "kg" }],
        tags := [],
        recipes :=
          [{ id := 1, author := 1, name := "", text := "",
             cooking_time := 1, image := "" },
           { id := 2, author := 1, name := "", text := "",
             cooking_time := 1, image := "" }],
        recipeTags := [],
        ingredientAmounts :=
          [{ recipe := 1, ingredient := 1, amount := 5 },
           { recipe := 2, ingredient := 2, amount := 9 }],
        favorites := [], carts := [(1, 1), (1, 2)], follows := [] } 1 =
      Except.ok [("salt", (5 : Int) + 9, "g")] :=
  shopping_list_keyed_by_name_only 1 1 2 1 2 1 5 9 "salt" "g" "kg"
    (by decide) (by decide)
